import Mathlib

/-!
Shallow embedding of `src/main.py` (a per-guild music queue bot).

Modelling conventions:
* A yt-dlp `extract_info` call is an oracle `Resolver : String → ExtractResult`:
  it can raise (`exn`), return `None` (`noData`), or return a dict (`val d`).
  A dict is modelled by `YtData`, keeping only the keys the program reads
  (`entries`, `url`, `webpage_url`, `title`).  An absent key and a key mapped
  to Python `None` are both modelled as `none`.
* Python truthiness of a string-or-None value is `pyTruthy` (None and `""` are
  falsy).
* Per-guild state is `GuildState`: the guild's entry of `music_queues`, plus
  the voice-client facts the program reads (`ctx.voice_client` existence,
  `is_connected()`, its channel, `is_playing()`).
* Effects are recorded as an event trace (`Ev`): messages sent, queue pops and
  appends, stream starts/stops, completion-callback firings, and the explicit
  invocations of `play_next_in_queue` by its two callers.
* A Python exception that escapes a function is `Except.error`, carrying the
  state and trace accumulated up to the raise point.
-/

/-- A queued song dict `{"url": ..., "title": ...}` (`add_to_queue` payload). -/
structure Song where
  url : String
  title : String
deriving DecidableEq, Repr

/-- A yt-dlp info dict, restricted to the keys `main.py` reads.  `entries` is
`some l` when the key `"entries"` is present (a playlist/search result). -/
inductive YtData where
  | mk : Option (List YtData) → Option String → Option String → Option String → YtData

/-- The `"entries"` key. -/
def YtData.entries : YtData → Option (List YtData)
  | .mk e _ _ _ => e

/-- The `"url"` key. -/
def YtData.url : YtData → Option String
  | .mk _ u _ _ => u

/-- The `"webpage_url"` key. -/
def YtData.webpage_url : YtData → Option String
  | .mk _ _ w _ => w

/-- The `"title"` key. -/
def YtData.title : YtData → Option String
  | .mk _ _ _ t => t

/-- Outcome of one `ytdl.extract_info(..., download=False)` call. -/
inductive ExtractResult where
  | exn : ExtractResult
  | noData : ExtractResult
  | val : YtData → ExtractResult

/-- The media-resolution backend: what `extract_info` does on each query. -/
def Resolver : Type := String → ExtractResult

/-- Python truthiness of an optional string: `None` and `""` are falsy. -/
def pyTruthy : Option String → Bool
  | none => false
  | some s => s != ""

/-- The user-facing messages `main.py` sends, as an enumeration. -/
inductive Msg where
  | queueEnded : Msg
  | couldNotPlay : String → Msg
  | nowPlaying : String → Msg
  | added : String → Msg
  | needVoiceChannel : Msg
  | searchError : Msg
  | noPlayableUrl : Msg
  | skipped : Msg
  | nothingToSkip : Msg
  | leftChannel : Msg
  | notInVoice : Msg
deriving DecidableEq, Repr

/-- The literal text each message renders to in `main.py`. -/
def Msg.text : Msg → String
  | .queueEnded => "Queue ended ✅"
  | .couldNotPlay t => "Could not play **" ++ t ++ "** 😢"
  | .nowPlaying t => "🎶 Now playing: **" ++ t ++ "**"
  | .added t => "➕ Added to queue: **" ++ t ++ "**"
  | .needVoiceChannel => "You need to be in a voice channel first!"
  | .searchError => "❌ Something went wrong while searching/downloading."
  | .noPlayableUrl => "❌ Could not get a playable URL."
  | .skipped => "⏭ Skipped"
  | .nothingToSkip => "Nothing to skip."
  | .leftChannel => "👋 Left the voice channel."
  | .notInVoice => "I'm not in a voice channel."

/-- Observable events of the model. `startStream u` is `voice_client.play` on
an FFmpeg source built from audio url `u`; `completion` is an invocation of the
`after_playing` callback; `advanceTriggered` marks each place a caller invokes
`play_next_in_queue` (the play command and the completion callback). -/
inductive Ev where
  | send : Msg → Ev
  | dequeue : Song → Ev
  | enqueue : Song → Ev
  | startStream : String → Ev
  | stopStream : Ev
  | completion : Ev
  | advanceTriggered : Ev
  | connect : Nat → Ev
  | moveTo : Nat → Ev
  | disconnect : Ev
deriving DecidableEq, Repr

/-- Per-guild state: this guild's `music_queues` entry plus the voice-client
facts the program reads.  `hasVoice` is `ctx.voice_client is not None`,
`voiceConnected` is `voice_client.is_connected()`, `playing` is
`voice_client.is_playing()`. -/
structure GuildState where
  queue : List Song
  hasVoice : Bool
  voiceConnected : Bool
  voiceChannel : Option Nat
  playing : Bool
deriving DecidableEq, Repr

/-- Merge the two outcomes of a fallible run when both carry the same data
(state reached and trace emitted, whether or not an exception escaped). -/
def outcome {α : Type} : Except α α → α
  | .ok a => a
  | .error a => a

/-! ## Queue store (`music_queues`, `get_guild_queue`, `add_to_queue`)

The global dict `music_queues` is modelled as a total map `Nat → List Song`;
`get_guild_queue`'s lazy creation of a missing entry is observationally the
empty list, so a missing key and an empty queue coincide in the model. -/

/-- Model of `get_guild_queue(guild_id)`. -/
def get_guild_queue (queues : Nat → List Song) (guild_id : Nat) : List Song :=
  queues guild_id

/-- Model of `add_to_queue(guild_id, song)`: append at the tail of that guild's list. -/
def add_to_queue (queues : Nat → List Song) (guild_id : Nat) (song : Song) :
    Nat → List Song :=
  fun g => if g = guild_id then get_guild_queue queues guild_id ++ [song] else queues g

/-- The `queue.pop(0)` call as a functional dequeue: head and remainder, or `none`. -/
def dequeueNext (q : List Song) : Option (Song × List Song) :=
  match q with
  | [] => none
  | song :: rest => some (song, rest)

/-- Repeatedly dequeue until empty, collecting the returned songs in order. -/
def dequeueAll (q : List Song) : List Song :=
  match h : dequeueNext q with
  | none => []
  | some (song, rest) => song :: dequeueAll rest
termination_by q.length
decreasing_by
  cases q with
  | nil => simp [dequeueNext] at h
  | cons a b =>
    simp only [dequeueNext, Option.some.injEq, Prod.mk.injEq] at h
    simp [← h.2]

/-! ## `create_audio_source` -/

/-- Model of `create_audio_source(url)`.  `Except.error ()` is the `IndexError` raised
by `data["entries"][0]` on an empty entries list — that subscript sits outside
the function's `try`, so the exception escapes.  `.ok none` is the explicit
`return None` paths (extraction raised, returned `None`, or no truthy
`"url"`). On success the result carries the audio url wrapped in
`FFmpegPCMAudio`. -/
def create_audio_source (resolve : Resolver) (url : String) :
    Except Unit (Option String) :=
  match resolve url with
  | .exn => .ok none
  | .noData => .ok none
  | .val data =>
    match data.entries with
    | some l =>
      match l.head? with
      | none => .error ()
      | some data2 => if pyTruthy data2.url then .ok data2.url else .ok none
    | none => if pyTruthy data.url then .ok data.url else .ok none

/-! ## `play_next_in_queue`

The Python function recurses on itself after a resolution failure; the only
state it changes between recursive calls is the popped queue, and the voice
checks it re-runs read fields the loop never writes.  `playNextLoop` is that
recursion written structurally over the remaining queue, and
`play_next_in_queue` is the guarded entry point; the faithfulness of the
re-check skipping is proved in `playNextLoop_queue_irrelevant` and
`play_next_in_queue_unfold` below. -/

/-- The drain loop of `play_next_in_queue`, structurally recursive over the
remaining queue.  `s` carries the non-queue fields; every exit point rebuilds
the state with the queue that remains at that point. -/
def playNextLoop (resolve : Resolver) (s : GuildState) :
    List Song → Except (GuildState × List Ev) (GuildState × List Ev)
  | [] => .ok ({ s with queue := [] }, [.send .queueEnded])
  | song :: rest =>
    match create_audio_source resolve song.url with
    | .error _ =>
      -- the IndexError from `create_audio_source` escapes this function too
      .error ({ s with queue := rest }, [.dequeue song])
    | .ok none =>
      match playNextLoop resolve s rest with
      | .ok (s2, evs) =>
        .ok (s2, .dequeue song :: .send (.couldNotPlay song.title) :: evs)
      | .error (s2, evs) =>
        .error (s2, .dequeue song :: .send (.couldNotPlay song.title) :: evs)
    | .ok (some audioUrl) =>
      .ok ({ s with queue := rest, playing := true },
           [.dequeue song, .startStream audioUrl, .send (.nowPlaying song.title)])

/-- Model of `play_next_in_queue(ctx)`: bail out silently unless a connected voice
client exists, then drain from the guild's queue. -/
def play_next_in_queue (resolve : Resolver) (s : GuildState) :
    Except (GuildState × List Ev) (GuildState × List Ev) :=
  if !s.hasVoice || !s.voiceConnected then .ok (s, [])
  else playNextLoop resolve s s.queue

/-- Model of `after_playing(err)`: the completion callback.  It logs the error, then
marshals `play_next_in_queue` back onto the bot loop and waits on the future,
swallowing (printing) any exception the coroutine raised. -/
def after_playing (resolve : Resolver) (s : GuildState) : GuildState × List Ev :=
  let res := outcome (play_next_in_queue resolve s)
  (res.1, .completion :: .advanceTriggered :: res.2)

/-! ## The `play` command -/

/-- Python's `s.startswith(pre)`, modelled on the character data. -/
def strStartsWith (s pre : String) : Bool :=
  pre.data.isPrefixOf s.data

/-- Is the query handled as a direct link? (`query.startswith("http://") or
query.startswith("https://")`). -/
def isUrlQuery (query : String) : Bool :=
  strStartsWith query "http://" || strStartsWith query "https://"

/-- The `try:` block of the play command: produce the selected info dict, or
`none` when any exception was caught (extraction raised, data was `None` so
`"entries" in data` raised `TypeError`, a missing `"entries"` key raised
`KeyError`, or an empty entries list raised `IndexError`). -/
def resolve_in_play (resolve : Resolver) (query : String) : Option YtData :=
  let step1 : Option YtData :=
    if isUrlQuery query then
      match resolve query with
      | .val data => some data
      | _ => none
    else
      match resolve ("ytsearch:" ++ query) with
      | .val res =>
        match res.entries with
        | some l => l.head?
        | none => none
      | _ => none
  match step1 with
  | none => none
  | some data =>
    match data.entries with
    | some l => l.head?
    | none => some data

/-- The connect-or-move step of the play command: connect when no voice client
exists, move when it sits in a different channel, else do nothing. -/
def voice_connect_step (s : GuildState) (ch : Nat) : GuildState × List Ev :=
  if !s.hasVoice then
    ({ s with hasVoice := true, voiceConnected := true, voiceChannel := some ch },
     [.connect ch])
  else if s.voiceChannel ≠ some ch then
    ({ s with voiceChannel := some ch }, [.moveTo ch])
  else (s, [])

/-- The assignment `url = data.get("webpage_url", None) or data.get("url")`, with Python's
truthiness-based `or`. -/
def playUrl (data : YtData) : Option String :=
  if pyTruthy data.webpage_url then data.webpage_url else data.url

/-- The song dict the play command enqueues:
`{"url": url, "title": data.get("title", "Unknown title")}`. -/
def playSong (data : YtData) : Song :=
  ⟨(playUrl data).getD "", data.title.getD "Unknown title"⟩

/-- The `play` command.  `authorChannel` is the caller's voice channel (`none`
when the author is in no voice channel).  Exceptions escaping the awaited
`play_next_in_queue` escape the command as well (`Except.error`). -/
def play (resolve : Resolver) (authorChannel : Option Nat) (query : String)
    (s : GuildState) : Except (GuildState × List Ev) (GuildState × List Ev) :=
  match authorChannel with
  | none => .ok (s, [.send .needVoiceChannel])
  | some ch =>
    let sc := voice_connect_step s ch
    match resolve_in_play resolve query with
    | none => .ok (sc.1, sc.2 ++ [.send .searchError])
    | some data =>
      if pyTruthy (playUrl data) then
        let song : Song := playSong data
        let s2 : GuildState := { sc.1 with queue := sc.1.queue ++ [song] }
        let evs2 : List Ev := sc.2 ++ [.enqueue song, .send (.added song.title)]
        if s2.playing then .ok (s2, evs2)
        else
          match play_next_in_queue resolve s2 with
          | .ok (s3, evs3) => .ok (s3, evs2 ++ .advanceTriggered :: evs3)
          | .error (s3, evs3) => .error (s3, evs2 ++ .advanceTriggered :: evs3)
      else .ok (sc.1, sc.2 ++ [.send .noPlayableUrl])

/-! ## `skip` and `leave` -/

/-- The `skip` command: when a stream is active, `voice_client.stop()` ends it,
which fires the registered `after_playing` callback exactly once (the voice
collaborator's contract); then the "Skipped" confirmation is sent.  `skip`
itself never calls `play_next_in_queue`. -/
def skip (resolve : Resolver) (s : GuildState) : GuildState × List Ev :=
  if s.hasVoice && s.playing then
    let res := after_playing resolve { s with playing := false }
    (res.1, .stopStream :: res.2 ++ [.send .skipped])
  else (s, [.send .nothingToSkip])

/-- The `leave` command: disconnect the voice client (which ends any active
stream) and confirm.  Note: `music_queues` is not touched. -/
def leave (s : GuildState) : GuildState × List Ev :=
  if s.hasVoice then
    ({ s with hasVoice := false, voiceConnected := false, voiceChannel := none,
              playing := false },
     [.disconnect, .send .leftChannel])
  else (s, [.send .notInVoice])

/-! ## Event classifiers used by the theorems -/

/-- Events a `playNextLoop` run can emit (pops, messages, stream starts). -/
def loopEv : Ev → Bool
  | .dequeue _ => true
  | .send _ => true
  | .startStream _ => true
  | _ => false

/-- Is this event the start of an audio stream? -/
def startsStream : Ev → Bool
  | .startStream _ => true
  | _ => false

/-- Is this event a "could not play" failure notification? -/
def isFailNotice : Ev → Bool
  | .send (.couldNotPlay _) => true
  | _ => false

/-- Is this event a queue pop? -/
def isDequeueEv : Ev → Bool
  | .dequeue _ => true
  | _ => false

/-- The trace a full failing drain leaves behind: a pop and a failure
notification for each queued song, in queue order. -/
def failTrace : List Song → List Ev
  | [] => []
  | song :: rest =>
    .dequeue song :: .send (.couldNotPlay song.title) :: failTrace rest

/-- The full trace of an advance whose every item fails resolution: the
failing drain followed by the closing "queue ended" notification. -/
def failTraceEnded (q : List Song) : List Ev :=
  failTrace q ++ [.send .queueEnded]

/-- Adding a trace segment in front of both outcomes of a fallible run. -/
def withPrefixEvs (evs : List Ev) :
    Except (GuildState × List Ev) (GuildState × List Ev) →
    Except (GuildState × List Ev) (GuildState × List Ev)
  | .ok (s, evs2) => .ok (s, evs ++ evs2)
  | .error (s, evs2) => .error (s, evs ++ evs2)

/-! ## Concrete inputs used by the witnesses -/

/-- A resolver on which every `extract_info` call raises. -/
def rFail : Resolver := fun _ => .exn

/-- A first queued song. -/
def songA : Song := ⟨"urlA", "A"⟩

/-- A second queued song. -/
def songB : Song := ⟨"urlB", "B"⟩

/-- Connected, idle, two songs queued. -/
def sTwoFail : GuildState := ⟨[songA, songB], true, true, some 1, false⟩

/-- Connected, idle, empty queue. -/
def sEmptyIdle : GuildState := ⟨[], true, true, some 1, false⟩

/-- No voice client, one song queued. -/
def sNoVoice : GuildState := ⟨[songA], false, false, none, false⟩

/-- Playing, connected, queue holding one song. -/
def sPlayingBusy : GuildState := ⟨[songA], true, true, some 1, true⟩

/-- Playing, connected, empty queue. -/
def sPlayingEmpty : GuildState := ⟨[], true, true, some 1, true⟩

/-- First search entry: has audio and page urls and a title. -/
def entryA : YtData := .mk none (some "audioA") (some "pageA") (some "Title A")

/-- Second search entry, never selected. -/
def entryB : YtData := .mk none (some "audioB") none none

/-- A two-entry result dict. -/
def resList : YtData := .mk (some [entryA, entryB]) none none none

/-- A resolver returning the two-entry list for one search and one link. -/
def rFirst : Resolver := fun q =>
  if q = "ytsearch:hello" then .val resList
  else if q = "https://x" then .val resList
  else .exn

/-- A search entry holding only a title — no playable url. -/
def entryT : YtData := .mk none none none (some "T")

/-- A resolver whose search result holds one entry with no url keys. -/
def rNoUrl : Resolver := fun _ =>
  .val (.mk (some [entryT]) none none none)

/-! ## Helper lemmas -/

/-- Lemma: `playNextLoop` rebuilds the queue at every exit, so the queue field of the
state parameter is irrelevant: the loop faithfully represents the Python
recursion, which re-reads the popped queue on each self-call. -/
theorem playNextLoop_queue_irrelevant (resolve : Resolver) (s : GuildState)
    (x : List Song) :
    ∀ q : List Song, playNextLoop resolve { s with queue := x } q =
      playNextLoop resolve s q := by
  intro q
  induction q with
  | nil => rfl
  | cons song rest ih =>
    simp only [playNextLoop, ih]

/-- The Python recursion, recovered: when a connected voice client exists, the
queue is nonempty and resolution of its head fails with `None`,
`play_next_in_queue` behaves exactly as popping the head, sending its failure
notification, and calling itself on the state holding the popped queue. -/
theorem play_next_in_queue_unfold (resolve : Resolver) (song : Song)
    (rest : List Song) (ch : Option Nat) (p : Bool)
    (hfail : create_audio_source resolve song.url = Except.ok none) :
    play_next_in_queue resolve ⟨song :: rest, true, true, ch, p⟩ =
      withPrefixEvs [.dequeue song, .send (.couldNotPlay song.title)]
        (play_next_in_queue resolve ⟨rest, true, true, ch, p⟩) := by
  have hql : playNextLoop resolve ⟨song :: rest, true, true, ch, p⟩ rest =
      playNextLoop resolve ⟨rest, true, true, ch, p⟩ rest :=
    playNextLoop_queue_irrelevant resolve ⟨rest, true, true, ch, p⟩
      (song :: rest) rest
  simp only [play_next_in_queue, playNextLoop, hfail, hql]
  cases playNextLoop resolve ⟨rest, true, true, ch, p⟩ rest with
  | ok pr => obtain ⟨s2, evs⟩ := pr; rfl
  | error pr => obtain ⟨s2, evs⟩ := pr; rfl

/-- Every event of a `playNextLoop` trace — exception or not — is a pop, a
message, or a stream start. -/
theorem playNextLoop_events (resolve : Resolver) (s : GuildState) :
    ∀ q : List Song, ∀ e ∈ (outcome (playNextLoop resolve s q)).2,
      loopEv e = true := by
  intro q
  induction q with
  | nil => intro e he; simp [playNextLoop, outcome] at he; simp [he, loopEv]
  | cons song rest ih =>
    intro e he
    simp only [playNextLoop] at he
    cases hcas : create_audio_source resolve song.url with
    | error u =>
      simp [hcas, outcome] at he
      rcases he with rfl | rfl <;> rfl
    | ok o =>
      cases o with
      | none =>
        simp only [hcas] at he
        cases hrec : playNextLoop resolve s rest with
        | ok p =>
          obtain ⟨s2, evs⟩ := p
          simp [hrec, outcome] at he
          rcases he with rfl | rfl | he
          · rfl
          · rfl
          · have := ih e; simp [hrec, outcome] at this; exact this he
        | error p =>
          obtain ⟨s2, evs⟩ := p
          simp [hrec, outcome] at he
          rcases he with rfl | rfl | he
          · rfl
          · rfl
          · have := ih e; simp [hrec, outcome] at this; exact this he
      | some audioUrl =>
        simp [hcas, outcome] at he
        rcases he with rfl | rfl | rfl <;> rfl

/-- A single drain starts at most one stream, whatever the queue holds. -/
theorem playNextLoop_at_most_one_start (resolve : Resolver) (s : GuildState) :
    ∀ q : List Song,
      ((outcome (playNextLoop resolve s q)).2.filter startsStream).length ≤ 1 := by
  intro q
  induction q with
  | nil => simp [playNextLoop, outcome, startsStream]
  | cons song rest ih =>
    simp only [playNextLoop]
    cases hcas : create_audio_source resolve song.url with
    | error u => simp [outcome, startsStream]
    | ok o =>
      cases o with
      | none =>
        cases hrec : playNextLoop resolve s rest with
        | ok p =>
          obtain ⟨s2, evs⟩ := p
          simp only [outcome, List.filter, startsStream]
          have := ih; simp [hrec, outcome] at this; simpa [startsStream] using this
        | error p =>
          obtain ⟨s2, evs⟩ := p
          simp only [outcome, List.filter, startsStream]
          have := ih; simp [hrec, outcome] at this; simpa [startsStream] using this
      | some audioUrl => simp [outcome, startsStream, List.filter]

/-- A failing drain: if every remaining song's resolution returns `None`, the
loop pops them all, notifies each failure, and closes with "queue ended". -/
theorem playNextLoop_all_fail (resolve : Resolver) (s : GuildState) :
    ∀ q : List Song,
      (∀ song ∈ q, create_audio_source resolve song.url = Except.ok none) →
      playNextLoop resolve s q =
        .ok ({ s with queue := [] }, failTrace q ++ [.send .queueEnded]) := by
  intro q
  induction q with
  | nil => intro _; rfl
  | cons song rest ih =>
    intro hfail
    have hhead : create_audio_source resolve song.url = Except.ok none :=
      hfail song (by simp)
    have hrest := ih (fun t ht => hfail t (by simp [ht]))
    simp [playNextLoop, hhead, hrest, failTrace]

/-- The non-queue fields of `voice_connect_step` other than the voice ones are
untouched; in particular the queue and playing flag survive. -/
theorem voice_connect_step_frame (s : GuildState) (ch : Nat) :
    (voice_connect_step s ch).1.queue = s.queue ∧
    (voice_connect_step s ch).1.playing = s.playing ∧
    ∀ e ∈ (voice_connect_step s ch).2, e = .connect ch ∨ e = .moveTo ch := by
  unfold voice_connect_step
  split
  · simp
  · split <;> simp

/-- Successive pops return the whole queue in its stored order. -/
theorem dequeueAll_id (q : List Song) : dequeueAll q = q := by
  induction q with
  | nil => rw [dequeueAll]; rfl
  | cons a b ih =>
    rw [dequeueAll]
    show a :: dequeueAll b = a :: b
    rw [ih]

/-- Each song of a failing drain contributes exactly one failure notification
and exactly one pop to the trace. -/
theorem failTrace_counts (q : List Song) :
    ((failTrace q).filter isFailNotice).length = q.length ∧
    ((failTrace q).filter isDequeueEv).length = q.length := by
  induction q with
  | nil => simp [failTrace]
  | cons song rest ih =>
    simp [failTrace, isFailNotice, isDequeueEv, ih.1, ih.2]

/-! ## Claims -/

/-- C1: per guild, enqueue appends at the tail (`add_to_queue`), dequeue
removes the head, and successive dequeues return track descriptors in exactly
the order they were enqueued (FIFO); the pop performed by
`play_next_in_queue` takes exactly the head of the queue. -/
theorem claim_fifo_queue :
    (∀ (guild_id : Nat) (queues : Nat → List Song) (songs : List Song),
      get_guild_queue
        (songs.foldl (fun m song => add_to_queue m guild_id song) queues)
        guild_id =
      get_guild_queue queues guild_id ++ songs) ∧
    (∀ q : List Song, dequeueAll q = q) ∧
    (∀ (song : Song) (rest : List Song), dequeueNext (song :: rest) = some (song, rest)) ∧
    (∀ (resolve : Resolver) (song : Song) (rest : List Song) (ch : Option Nat)
        (p : Bool),
      ((outcome (play_next_in_queue resolve ⟨song :: rest, true, true, ch, p⟩)).2).head? =
        some (.dequeue song)) := by
  refine ⟨?_, dequeueAll_id, fun _ _ => rfl, ?_⟩
  · intro guild_id queues songs
    induction songs generalizing queues with
    | nil => simp
    | cons song rest ih =>
      rw [List.foldl_cons, ih]
      simp [add_to_queue, get_guild_queue]
  · intro resolve song rest ch p
    have h : play_next_in_queue resolve ⟨song :: rest, true, true, ch, p⟩ =
        playNextLoop resolve ⟨song :: rest, true, true, ch, p⟩ (song :: rest) := rfl
    rw [h]
    simp only [playNextLoop]
    cases hcas : create_audio_source resolve song.url with
    | error u => simp [outcome]
    | ok o =>
      cases o with
      | none =>
        cases hrec : playNextLoop resolve ⟨song :: rest, true, true, ch, p⟩ rest with
        | ok pr => obtain ⟨s2, evs⟩ := pr; simp [outcome]
        | error pr => obtain ⟨s2, evs⟩ := pr; simp [outcome]
      | some u => simp [outcome]

/-- C2: when every queued item fails resolution, one `play_next_in_queue` call
pops all N of them, emits exactly N "could not play" notifications (one per
item, in order), terminates, ends with an empty queue and the guild idle, and
closes with the "queue ended" notification. -/
theorem claim_advance_all_failures (resolve : Resolver) (s : GuildState)
    (hv : s.hasVoice = true) (hc : s.voiceConnected = true)
    (hidle : s.playing = false)
    (hfail : ∀ song ∈ s.queue,
      create_audio_source resolve song.url = Except.ok none) :
    play_next_in_queue resolve s =
      .ok ({ s with queue := [] }, failTraceEnded s.queue) ∧
    ((failTraceEnded s.queue).filter isFailNotice).length = s.queue.length ∧
    ((failTraceEnded s.queue).filter isDequeueEv).length = s.queue.length ∧
    (failTraceEnded s.queue).getLast? = some (.send .queueEnded) ∧
    ({ s with queue := [] } : GuildState).playing = false := by
  refine ⟨?_, ?_, ?_, ?_, hidle⟩
  · have hguard : (!s.hasVoice || !s.voiceConnected) = false := by
      simp [hv, hc]
    simp only [play_next_in_queue, hguard, Bool.false_eq_true, if_false,
      failTraceEnded]
    exact playNextLoop_all_fail resolve s s.queue hfail
  · simp [failTraceEnded, List.filter_append, (failTrace_counts s.queue).1,
      isFailNotice]
  · simp [failTraceEnded, List.filter_append, (failTrace_counts s.queue).2,
      isDequeueEv]
  · simp [failTraceEnded]

/-- Witness for C2 on a concrete two-song queue whose resolutions both fail. -/
theorem claim_advance_all_failures_witness :
    play_next_in_queue rFail sTwoFail =
      .ok ({ sTwoFail with queue := [] }, failTraceEnded sTwoFail.queue) :=
  (claim_advance_all_failures rFail sTwoFail rfl rfl rfl
    (by intro song hs; simp [sTwoFail] at hs; rcases hs with rfl | rfl <;> rfl)).1

/-- C3: `play_next_in_queue` on a connected guild with an empty queue sends
exactly the "queue ended" notification and changes nothing: no pop, no stream
start, and the guild's state (in particular its idle playing flag) is left as
it was, until a later external play command. -/
theorem claim_advance_empty_queue (resolve : Resolver) (s : GuildState)
    (hv : s.hasVoice = true) (hc : s.voiceConnected = true)
    (hq : s.queue = []) :
    play_next_in_queue resolve s = .ok (s, [.send .queueEnded]) := by
  obtain ⟨q0, b1, b2, ch0, p0⟩ := s
  dsimp only at hv hc hq
  subst hv; subst hc; subst hq
  rfl

/-- Witness for C3 on a concrete connected, idle, empty-queue guild. -/
theorem claim_advance_empty_queue_witness :
    play_next_in_queue rFail sEmptyIdle = .ok (sEmptyIdle, [.send .queueEnded]) :=
  claim_advance_empty_queue rFail sEmptyIdle rfl rfl rfl

/-- C7: a play command from a caller who is in no voice channel is rejected
with just the "You need to be in a voice channel first!" message; the state —
queue included — is returned untouched, nothing is enqueued, no connect or
move happens, and `play_next_in_queue` is not invoked. -/
theorem claim_play_requires_voice_channel (resolve : Resolver) (query : String)
    (s : GuildState) :
    play resolve none query s = .ok (s, [.send .needVoiceChannel]) := rfl

/-- C10: `play_next_in_queue` for a guild with no connected voice client
returns at once: nothing is dequeued, no stream starts, and not even a
"queue ended" message is sent — the state is unchanged and the trace empty. -/
theorem claim_advance_without_voice_client (resolve : Resolver) (s : GuildState)
    (h : s.hasVoice = false ∨ s.voiceConnected = false) :
    play_next_in_queue resolve s = .ok (s, []) := by
  rcases h with h | h <;> simp [play_next_in_queue, h]

/-- Witness for C10 on a concrete voice-less guild with a nonempty queue. -/
theorem claim_advance_without_voice_client_witness :
    play_next_in_queue rFail sNoVoice = .ok (sNoVoice, []) :=
  claim_advance_without_voice_client rFail sNoVoice (Or.inl rfl)

/-- The connect-or-move step never starts a stream, never triggers an
advance, and never enqueues. -/
theorem voice_connect_step_no_orch (s : GuildState) (ch : Nat) :
    (voice_connect_step s ch).2.filter startsStream = [] ∧
    Ev.advanceTriggered ∉ (voice_connect_step s ch).2 ∧
    ∀ song : Song, Ev.enqueue song ∉ (voice_connect_step s ch).2 := by
  unfold voice_connect_step
  split
  · simp [startsStream]
  · split <;> simp [startsStream]

/-- Every event of a `play_next_in_queue` run is a pop, a message, or a
stream start — never a completion, a stop, or an advance trigger. -/
theorem play_next_in_queue_events (resolve : Resolver) (s : GuildState) :
    ∀ e ∈ (outcome (play_next_in_queue resolve s)).2, loopEv e = true := by
  intro e he
  unfold play_next_in_queue at he
  split at he
  · simp [outcome] at he
  · exact playNextLoop_events resolve s s.queue e he

/-- In particular no completion callback, advance trigger, or stream stop is
recorded inside an advance. -/
theorem play_next_in_queue_no_orch (resolve : Resolver) (s : GuildState) :
    Ev.completion ∉ (outcome (play_next_in_queue resolve s)).2 ∧
    Ev.advanceTriggered ∉ (outcome (play_next_in_queue resolve s)).2 ∧
    Ev.stopStream ∉ (outcome (play_next_in_queue resolve s)).2 := by
  refine ⟨fun h => ?_, fun h => ?_, fun h => ?_⟩ <;>
    · have hev := play_next_in_queue_events resolve s _ h
      simp [loopEv] at hev

/-- Branch lemma: the play command when resolution raised inside the `try`. -/
theorem play_eq_search_error (resolve : Resolver) (ch : Nat) (query : String)
    (s : GuildState) (hres : resolve_in_play resolve query = none) :
    play resolve (some ch) query s =
      .ok ((voice_connect_step s ch).1,
           (voice_connect_step s ch).2 ++ [.send .searchError]) := by
  rw [play.eq_def]
  dsimp only
  rw [hres]

/-- Branch lemma: the play command when the selected dict has no truthy url. -/
theorem play_eq_no_url (resolve : Resolver) (ch : Nat) (query : String)
    (s : GuildState) (d : YtData) (hres : resolve_in_play resolve query = some d)
    (hurl : pyTruthy (playUrl d) = false) :
    play resolve (some ch) query s =
      .ok ((voice_connect_step s ch).1,
           (voice_connect_step s ch).2 ++ [.send .noPlayableUrl]) := by
  rw [play.eq_def]
  dsimp only
  rw [hres]
  simp [hurl]

/-- Branch lemma: the play command while a stream is active enqueues and
stops — `voice_client.is_playing()` suppresses the advance. -/
theorem play_eq_busy (resolve : Resolver) (ch : Nat) (query : String)
    (s : GuildState) (d : YtData) (hres : resolve_in_play resolve query = some d)
    (hurl : pyTruthy (playUrl d) = true) (hp : s.playing = true) :
    play resolve (some ch) query s =
      .ok ({ (voice_connect_step s ch).1 with
              queue := (voice_connect_step s ch).1.queue ++ [playSong d] },
           (voice_connect_step s ch).2 ++
             [.enqueue (playSong d), .send (.added (playSong d).title)]) := by
  have hp2 : (voice_connect_step s ch).1.playing = true :=
    ((voice_connect_step_frame s ch).2.1).trans hp
  rw [play.eq_def]
  dsimp only
  rw [hres]
  simp [hurl, hp2]

/-- Branch lemma: the play command on an idle guild enqueues and then awaits
`play_next_in_queue` on the grown queue, appending its trace after an advance
trigger (and propagating its exception, if any). -/
theorem play_eq_advance (resolve : Resolver) (ch : Nat) (query : String)
    (s : GuildState) (d : YtData) (hres : resolve_in_play resolve query = some d)
    (hurl : pyTruthy (playUrl d) = true) (hp : s.playing = false) :
    play resolve (some ch) query s =
      (match play_next_in_queue resolve
          { (voice_connect_step s ch).1 with
            queue := (voice_connect_step s ch).1.queue ++ [playSong d] } with
        | .ok (s3, evs3) =>
          .ok (s3, ((voice_connect_step s ch).2 ++
            [.enqueue (playSong d), .send (.added (playSong d).title)]) ++
            .advanceTriggered :: evs3)
        | .error (s3, evs3) =>
          .error (s3, ((voice_connect_step s ch).2 ++
            [.enqueue (playSong d), .send (.added (playSong d).title)]) ++
            .advanceTriggered :: evs3)) := by
  have hp2 : (voice_connect_step s ch).1.playing = false :=
    ((voice_connect_step_frame s ch).2.1).trans hp
  rw [play.eq_def]
  dsimp only
  rw [hres]
  simp [hurl, hp2]

/-- C4: while a guild is playing, a racing play command does not start a
second stream: the command enqueues at most and never reaches
`play_next_in_queue`, so its trace holds no stream start and no advance
trigger, and moreover any single advance starts at most one stream. -/
theorem claim_no_second_stream (resolve : Resolver) (ch : Nat) (query : String)
    (s : GuildState) (hp : s.playing = true) :
    (∃ s' evs, play resolve (some ch) query s = .ok (s', evs) ∧
      evs.filter startsStream = [] ∧ Ev.advanceTriggered ∉ evs ∧
      s'.playing = true) ∧
    (∀ (r : Resolver) (t : GuildState) (q : List Song),
      ((outcome (playNextLoop r t q)).2.filter startsStream).length ≤ 1) := by
  obtain ⟨hq1, hp1, _⟩ := voice_connect_step_frame s ch
  obtain ⟨hf1, hf2, _⟩ := voice_connect_step_no_orch s ch
  refine ⟨?_, fun r t q => playNextLoop_at_most_one_start r t q⟩
  cases hres : resolve_in_play resolve query with
  | none =>
    refine ⟨_, _, play_eq_search_error resolve ch query s hres, ?_, ?_,
      hp1.trans hp⟩
    · simp [List.filter_append, hf1, startsStream]
    · simp [hf2]
  | some d =>
    by_cases hurl : pyTruthy (playUrl d) = true
    · refine ⟨_, _, play_eq_busy resolve ch query s d hres hurl hp, ?_, ?_, ?_⟩
      · simp [List.filter_append, hf1, startsStream]
      · simp [hf2]
      · simp [hp1, hp]
    · have hurl' : pyTruthy (playUrl d) = false := by simpa using hurl
      refine ⟨_, _, play_eq_no_url resolve ch query s d hres hurl', ?_, ?_,
        hp1.trans hp⟩
      · simp [List.filter_append, hf1, startsStream]
      · simp [hf2]

/-- Witness for C4 on a concrete playing guild receiving a play command. -/
theorem claim_no_second_stream_witness :
    ∃ s' evs, play rFail (some 1) "hello" sPlayingBusy = .ok (s', evs) ∧
      evs.filter startsStream = [] ∧ Ev.advanceTriggered ∉ evs ∧
      s'.playing = true :=
  (claim_no_second_stream rFail 1 "hello" sPlayingBusy rfl).1

/-- C5: `skip` on an active stream stops it, which fires the registered
completion callback exactly once and hence exactly one advance trigger — skip
itself adds no second advance path. -/
theorem claim_skip_single_advance (resolve : Resolver) (s : GuildState)
    (hv : s.hasVoice = true) (hp : s.playing = true) :
    (skip resolve s).2.count Ev.completion = 1 ∧
    (skip resolve s).2.count Ev.advanceTriggered = 1 ∧
    (skip resolve s).2.count Ev.stopStream = 1 := by
  have hcond : (s.hasVoice && s.playing) = true := by simp [hv, hp]
  obtain ⟨h1, h2, h3⟩ :=
    play_next_in_queue_no_orch resolve { s with playing := false }
  simp only [skip, hcond, if_true, after_playing]
  refine ⟨?_, ?_, ?_⟩ <;>
    simp [List.count_cons, List.count_append, List.count_eq_zero, h1, h2, h3]

/-- Witness for C5: skipping a concrete active stream. -/
theorem claim_skip_single_advance_witness :
    (skip rFail sPlayingEmpty).2.count Ev.completion = 1 ∧
    (skip rFail sPlayingEmpty).2.count Ev.advanceTriggered = 1 ∧
    (skip rFail sPlayingEmpty).2.count Ev.stopStream = 1 :=
  claim_skip_single_advance rFail sPlayingEmpty rfl rfl

/-- C6 counterexample: `leave` on a connected guild with one queued song
leaves the queue nonempty — the claim that the queue is empty after `leave`
completes fails on this input. -/
theorem claim_leave_clears_queue_counterexample :
    ¬ ((leave ⟨[songA], true, true, some 1, false⟩).1.queue = []) := by
  decide

/-- C6 amended: `leave` disconnects the voice client and confirms, but does
not clear the guild's queue — the queue keeps exactly its previous contents
(no clear operation exists in the program, and `leave` never touches
`music_queues`). -/
theorem claim_leave_keeps_queue (s : GuildState) (h : s.hasVoice = true) :
    leave s =
      ({ s with hasVoice := false, voiceConnected := false,
                voiceChannel := none, playing := false },
       [.disconnect, .send .leftChannel]) ∧
    (leave s).1.queue = s.queue := by
  refine ⟨by simp [leave, h], ?_⟩
  simp [leave, h]

/-- Witness for the amended C6 on a concrete guild with one queued song. -/
theorem claim_leave_keeps_queue_witness :
    (leave ⟨[songA], true, true, some 1, false⟩).1.queue =
      (⟨[songA], true, true, some 1, false⟩ : GuildState).queue :=
  (claim_leave_keeps_queue ⟨[songA], true, true, some 1, false⟩ rfl).2

/-- C8: resolution handles both direct links (the `http(s)://` branch) and
free-text search (the `ytsearch:` branch), and whenever an `entries` list is
present the first element is selected deterministically — in the play
command's search path, in its direct-link path, and in `create_audio_source`
at playback time. -/
theorem claim_first_result_selected :
    (∀ (resolve : Resolver) (query : String) (res e : YtData) (l : List YtData),
      isUrlQuery query = false →
      resolve ("ytsearch:" ++ query) = .val res →
      res.entries = some (e :: l) →
      e.entries = none →
      resolve_in_play resolve query = some e) ∧
    (∀ (resolve : Resolver) (query : String) (d e : YtData) (l : List YtData),
      isUrlQuery query = true →
      resolve query = .val d →
      d.entries = some (e :: l) →
      resolve_in_play resolve query = some e) ∧
    (∀ (resolve : Resolver) (url : String) (d e : YtData) (l : List YtData),
      resolve url = .val d →
      d.entries = some (e :: l) →
      create_audio_source resolve url =
        (if pyTruthy e.url then Except.ok e.url else Except.ok none)) := by
  refine ⟨?_, ?_, ?_⟩
  · intro resolve query res e l hq hr hent hee
    simp [resolve_in_play, hq, hr, hent, hee]
  · intro resolve query d e l hq hr hent
    simp [resolve_in_play, hq, hr, hent]
  · intro resolve url d e l hr hent
    simp [create_audio_source, hr, hent]

/-- Witness for C8: the first of two entries is the one selected, on a
concrete search query, a concrete direct link, and at playback time. -/
theorem claim_first_result_selected_witness :
    resolve_in_play rFirst "hello" = some entryA ∧
    resolve_in_play rFirst "https://x" = some entryA ∧
    create_audio_source rFirst "https://x" = Except.ok (some "audioA") := by
  refine ⟨?_, ?_, ?_⟩
  · exact claim_first_result_selected.1 rFirst "hello" resList entryA [entryB]
      (by decide) rfl rfl rfl
  · exact claim_first_result_selected.2.1 rFirst "https://x" resList entryA
      [entryB] (by decide) rfl rfl
  · have h := claim_first_result_selected.2.2 rFirst "https://x" resList entryA
      [entryB] rfl rfl
    simpa [entryA, pyTruthy, YtData.url] using h

/-- C9: when the play command's resolution raises (a raising extraction, a
`None` dict, a missing `entries` key, or an empty search result — the
`res["entries"][0]` `IndexError`), or when the selected dict yields no
playable url, the command sends the corresponding error message and returns:
the queue is unchanged, nothing is enqueued, and `play_next_in_queue` is
never invoked (the connect/move side effect from before resolution is the
only state change). -/
theorem claim_play_resolution_failure :
    (∀ (resolve : Resolver) (query : String) (ch : Nat) (s : GuildState),
      resolve_in_play resolve query = none →
      play resolve (some ch) query s =
        .ok ((voice_connect_step s ch).1,
             (voice_connect_step s ch).2 ++ [.send .searchError]) ∧
      (voice_connect_step s ch).1.queue = s.queue) ∧
    (∀ (resolve : Resolver) (query : String) (ch : Nat) (s : GuildState)
        (d : YtData),
      resolve_in_play resolve query = some d →
      pyTruthy (playUrl d) = false →
      play resolve (some ch) query s =
        .ok ((voice_connect_step s ch).1,
             (voice_connect_step s ch).2 ++ [.send .noPlayableUrl]) ∧
      (voice_connect_step s ch).1.queue = s.queue) ∧
    (∀ (s : GuildState) (ch : Nat),
      Ev.advanceTriggered ∉ (voice_connect_step s ch).2 ∧
      ∀ song : Song, Ev.enqueue song ∉ (voice_connect_step s ch).2) := by
  refine ⟨?_, ?_, ?_⟩
  · intro resolve query ch s hres
    exact ⟨play_eq_search_error resolve ch query s hres,
      (voice_connect_step_frame s ch).1⟩
  · intro resolve query ch s d hres hurl
    exact ⟨play_eq_no_url resolve ch query s d hres hurl,
      (voice_connect_step_frame s ch).1⟩
  · intro s ch
    exact ⟨(voice_connect_step_no_orch s ch).2.1,
      (voice_connect_step_no_orch s ch).2.2⟩

/-- Witness for C9: a concrete raising resolution and a concrete resolution
with no playable url both leave the queue of a concrete guild unchanged. -/
theorem claim_play_resolution_failure_witness :
    (play rFail (some 2) "hello" sTwoFail =
      .ok ((voice_connect_step sTwoFail 2).1,
           (voice_connect_step sTwoFail 2).2 ++ [.send .searchError]) ∧
     (voice_connect_step sTwoFail 2).1.queue = sTwoFail.queue) ∧
    (play rNoUrl (some 2) "hello" sTwoFail =
      .ok ((voice_connect_step sTwoFail 2).1,
           (voice_connect_step sTwoFail 2).2 ++ [.send .noPlayableUrl]) ∧
     (voice_connect_step sTwoFail 2).1.queue = sTwoFail.queue) :=
  ⟨claim_play_resolution_failure.1 rFail "hello" 2 sTwoFail rfl,
   claim_play_resolution_failure.2.1 rNoUrl "hello" 2 sTwoFail entryT rfl rfl⟩
